import Mathlib

/-!
Shallow embedding of `snakemake_executor_kueue/custom_resource.py`.

The module defines a `JobStatus` enumeration, a shared `KubernetesObject`
handle class, and two backend variants: `BatchJob` (a `batch/v1` Job) and
`FluxMiniCluster` (a `flux-framework.org/v1alpha1` MiniCluster custom
resource).  Python dynamic values stored in the task resource mapping are
modelled by `PyValue`; Python truthiness by `PyValue.truthy`.  Network calls
to the cluster are modelled by passing the cluster API explicitly as a
function argument, and mutation of `self.jobname` by explicit state passing
(the method returns the updated handle together with its Python return
value).
-/

/-- A Python scalar value as stored in a task resource mapping: a string, an
integer, or None.  -/
inductive PyValue
  | vstr (s : String)
  | vint (n : Int)
  | vnone
deriving DecidableEq, Repr

/-- Python truthiness for `PyValue`: empty strings, zero and None are falsy. -/
def PyValue.truthy : PyValue → Bool
  | .vstr s => s ≠ ""
  | .vint n => n ≠ 0
  | .vnone => false

/-- Python `a or b`: keeps `a` when truthy, otherwise yields `b`. -/
def pyOr (a b : PyValue) : PyValue :=
  if a.truthy then a else b

/-- A task resource mapping (`job.resources`), a string-keyed dictionary. -/
abbrev Resources : Type := List (String × PyValue)

/-- Python `dict.get(key, default)` on a resource mapping. -/
def Resources.getD (r : Resources) (key : String) (default : PyValue) : PyValue :=
  match List.lookup key r with
  | some v => v
  | none => default

/-- Python `dict.get(key)` on a resource mapping (default None). -/
def Resources.get (r : Resources) (key : String) : PyValue :=
  Resources.getD r key .vnone

/-- The snakemake job handed to the executor: only the attributes the module
reads (`job.name`, `job.jobid`, `job.resources`). -/
structure SnakemakeJob where
  name : String
  jobid : Nat
  resources : Resources

/-- The executor arguments the module reads: the target namespace and the
Kueue queue name. -/
structure ExecutorArgs where
  namespaceName : String
  queue_name : String

/-- `class JobStatus(Enum)`: the closed status enumeration. -/
inductive JobStatus
  | ACTIVE
  | FAILED
  | READY
  | SUCCEEDED
  | UNKNOWN
deriving DecidableEq, Repr

/-- `KubernetesObject.__init__`: the shared handle state.  `jobname` starts
as None and is set by `submit`. -/
structure KubernetesObject where
  job : SnakemakeJob
  executor_args : ExecutorArgs
  jobname : Option String := none

/-- Python `str.replace` specialised to a one-character pattern, as used by
`jobprefix` with `.replace("_", "-")`: every occurrence of the character is
replaced. -/
def pyReplaceChar (s : String) (pat repl : Char) : String :=
  String.mk (s.data.map (fun c => if c = pat then repl else c))

/-- `KubernetesObject.jobprefix` (property): the string
`"snakejob-<name>-<jobid>"` with every underscore replaced by a hyphen.
Named `jobprefixName` in this development. -/
def KubernetesObject.jobprefixName (k : KubernetesObject) : String :=
  pyReplaceChar ("snakejob-" ++ k.job.name ++ "-" ++ toString k.job.jobid) '_' '-'

/-- `KubernetesObject.write_log(self, logfile)`: the base implementation is
`pass`.  Effects are modelled as the list of (path, contents) files written;
the base method writes none. -/
def KubernetesObject.write_log (_k : KubernetesObject) (_logfile : String) :
    List (String × String) :=
  []

/-- The native status object `job.status` read back from the cluster for a
batch job: each counter is an integer or None. -/
structure V1JobStatus where
  active : Option Int
  failed : Option Int
  ready : Option Int
  succeeded : Option Int
deriving DecidableEq, Repr

/-- The part of a `read_namespaced_job` result that `BatchJob.status` reads:
the native status counters and the declared `spec.completions`. -/
structure ReadJob where
  status : V1JobStatus
  completions : Option Int
deriving DecidableEq, Repr

/-- Python truthiness of an int-or-None field: None and 0 are falsy. -/
def pyTruthyCount : Option Int → Bool
  | none => false
  | some n => n != 0

/-- The status-mapping body of `BatchJob.status`, applied to the job object
read back from the cluster.  Mirrors the source line by line:
`if job.status.failed != 0`, `if job.status.active`, `if job.status.ready`,
`if succeeded and succeeded == job.spec.completions`, else UNKNOWN.
Note the first test: Python `None != 0` is True. -/
def BatchJob.mapStatus (j : ReadJob) : JobStatus :=
  if j.status.failed != some 0 then .FAILED
  else if pyTruthyCount j.status.active then .ACTIVE
  else if pyTruthyCount j.status.ready then .READY
  else if pyTruthyCount j.status.succeeded && (j.status.succeeded == j.completions)
    then .SUCCEEDED
  else .UNKNOWN

/-- Errors raised when a status query cannot return a `JobStatus`. -/
inductive StatusError
  /- The typed kubernetes client validates required parameters:
  `read_namespaced_job(None, ns)` raises ApiValueError (missing required
  parameter `name`), so an unset `self.jobname` never reaches the wire. -/
  | missingJobName
  /- Python attribute dispatch: invoking a method the class does not define
  raises AttributeError. -/
  | methodMissing
deriving DecidableEq, Repr

/-- `BatchJob.status(self)`: reads the job named `self.jobname` in the
configured namespace through the typed batch API (passed as a function) and
maps the native status.  With `jobname` still None the typed client raises
before any network call, modelled as an error result. -/
def BatchJob.statusOf (readNamespacedJob : String → String → ReadJob)
    (h : KubernetesObject) : Except StatusError JobStatus :=
  match h.jobname with
  | none => .error .missingJobName
  | some name =>
      .ok (BatchJob.mapStatus (readNamespacedJob name h.executor_args.namespaceName))

/-- `FluxMiniCluster` defines no `status` method and inherits none; Python
raises AttributeError when it is invoked, modelled as an error result. -/
def FluxMiniCluster.statusOf (_h : KubernetesObject) : Except StatusError JobStatus :=
  .error .methodMissing

/-- The created object returned by the cluster on a create call; the module
only reads `result.metadata.name`. -/
structure CreatedObject where
  name : String
deriving DecidableEq, Repr

/-- `V1ObjectMeta` as constructed by the two generators: `generate_name`,
optional labels, optional namespace. -/
structure V1ObjectMeta where
  generateName : Option String
  labels : Option (List (String × String))
  namespaceName : Option String
deriving DecidableEq, Repr

/-- The `{"requests": {...}}` / `{"limits": {...}}` inner dictionary. -/
structure ResourcePair where
  cpu : PyValue
  memory : PyValue
deriving DecidableEq, Repr

/-- The container resources dictionary of the batch-job container:
`{"requests": {"cpu": cores, "memory": memory}}`. -/
structure V1ContainerResources where
  requests : ResourcePair
deriving DecidableEq, Repr

/-- `client.V1Container` as constructed by `BatchJob.generate`, including the
conditionally-set `active_deadline_seconds`. -/
structure V1Container where
  image : String
  name : String
  command : List String
  args : List String
  workingDir : Option String
  env : List (String × String)
  resources : V1ContainerResources
  activeDeadlineSeconds : Option PyValue
deriving DecidableEq, Repr

/-- The pod template `{"spec": {"containers": [...], "restartPolicy": "Never"}}`. -/
structure PodTemplate where
  containers : List V1Container
  restartPolicy : String
deriving DecidableEq, Repr

/-- `client.V1JobSpec(parallelism=..., completions=..., suspend=..., template=...)`. -/
structure V1JobSpec where
  parallelism : PyValue
  completions : Int
  suspendFlag : Bool
  template : PodTemplate
deriving DecidableEq, Repr

/-- `client.V1Job`: the generated batch-job submission object. -/
structure V1Job where
  apiVersion : String
  kind : String
  metadata : V1ObjectMeta
  spec : V1JobSpec
deriving DecidableEq, Repr

/-- `BatchJob.generate(self, image, command, args, working_dir=None,
deadline=None, environment=None)`.  The `deadline` parameter is immediately
overwritten from `job.resources.get("runtime")`; memory defaults to
`"200Mi"` when the `kueue.memory` resource is absent or falsy. -/
def BatchJob.generate (h : KubernetesObject) (image command : String)
    (args : List String) (working_dir : Option String := none)
    (_deadline : PyValue := .vnone)
    (environment : Option (List (String × String)) := none) : V1Job :=
  let deadline := Resources.get h.job.resources "runtime"
  let nodes := Resources.get h.job.resources "_nodes"
  let cores := Resources.get h.job.resources "_cores"
  let memory := pyOr (Resources.getD h.job.resources "kueue.memory" (.vstr "200Mi"))
      (.vstr "200Mi")
  let metadata : V1ObjectMeta :=
    { generateName := some (KubernetesObject.jobprefixName h)
      labels := some [("kueue.x-k8s.io/queue-name", h.executor_args.queue_name)]
      namespaceName := none }
  let environ := (environment.getD []).map (fun kv => kv)
  let container : V1Container :=
    { image := image
      name := KubernetesObject.jobprefixName h
      command := [command]
      args := args
      workingDir := working_dir
      env := environ
      resources := { requests := { cpu := cores, memory := memory } }
      activeDeadlineSeconds := if deadline.truthy then some deadline else none }
  let template : PodTemplate := { containers := [container], restartPolicy := "Never" }
  { apiVersion := "batch/v1"
    kind := "Job"
    metadata := metadata
    spec := { parallelism := nodes, completions := 3, suspendFlag := true
              template := template } }

/-- `fluxoperator.models.MiniClusterContainer` as constructed by
`FluxMiniCluster.generate`: the command is a single shell-style string and
resources use `"limits"`. -/
structure MiniClusterContainer where
  command : String
  environment : Option (List (String × String))
  image : String
  limits : ResourcePair
deriving DecidableEq, Repr

/-- `fluxoperator.models.MiniClusterSpec`, with `logging={"quiet": False}`
flattened to `loggingQuiet` and the conditionally-set `deadline`. -/
structure MiniClusterSpec where
  job_labels : List (String × String)
  containers : List MiniClusterContainer
  working_dir : Option String
  size : PyValue
  tasks : PyValue
  loggingQuiet : Bool
  deadline : Option PyValue
deriving DecidableEq, Repr

/-- `fluxoperator.models.MiniCluster`: the generated custom-resource body. -/
structure MiniCluster where
  kind : String
  apiVersion : String
  metadata : V1ObjectMeta
  spec : MiniClusterSpec
deriving DecidableEq, Repr

/-- `FluxMiniCluster.generate(self, image, command, args, working_dir=None,
deadline=None, environment=None)`.  The `deadline` parameter is immediately
overwritten from `job.resources.get("runtime")`; the metadata passes
`generate_name=self.jobname` (not the jobprefix); the memory default string
is `"200M1"`. -/
def FluxMiniCluster.generate (h : KubernetesObject) (image command : String)
    (args : List String) (working_dir : Option String := none)
    (_deadline : PyValue := .vnone)
    (environment : Option (List (String × String)) := none) : MiniCluster :=
  let deadline := Resources.get h.job.resources "runtime"
  let cores := Resources.get h.job.resources "_cores"
  let nodes := Resources.get h.job.resources "_nodes"
  let memory := pyOr (Resources.getD h.job.resources "kueue.memory" (.vstr "200M1"))
      (.vstr "200M1")
  let tasks := pyOr (Resources.getD h.job.resources "kueue.tasks" (.vint 1)) (.vint 1)
  let container : MiniClusterContainer :=
    { command := command ++ " " ++ String.intercalate " " args
      environment := environment
      image := image
      limits := { cpu := cores, memory := memory } }
  let spec : MiniClusterSpec :=
    { job_labels := [("kueue.x-k8s.io/queue-name", h.executor_args.queue_name)]
      containers := [container]
      working_dir := working_dir
      size := nodes
      tasks := tasks
      loggingQuiet := false
      deadline := if deadline.truthy then some deadline else none }
  { kind := "MiniCluster"
    apiVersion := "flux-framework.org/v1alpha1"
    metadata := { generateName := h.jobname
                  labels := none
                  namespaceName := some h.executor_args.namespaceName }
    spec := spec }

/-- The cluster create APIs, passed explicitly: the typed batch-job create
call and the generic custom-resource create call (group, version, namespace,
plural, body). -/
structure ClusterAPIs where
  createNamespacedJob : String → V1Job → CreatedObject
  createNamespacedCustomObject :
    String → String → String → String → MiniCluster → CreatedObject

/-- `BatchJob.submit(self, job)`: creates the job through the typed batch
API, records `result.metadata.name` into `self.jobname`, and returns the
created object.  Mutation of `self` is modelled by returning the updated
handle. -/
def BatchJob.submit (apis : ClusterAPIs) (h : KubernetesObject) (jobBody : V1Job) :
    KubernetesObject × CreatedObject :=
  let result := apis.createNamespacedJob h.executor_args.namespaceName jobBody
  ({ h with jobname := some result.name }, result)

/-- `FluxMiniCluster.submit(self, job)`: creates the object through the
generic custom-objects API with group `flux-framework.org`, version
`v1alpha1`, plural `miniclusters`, records the created name, and returns the
created object. -/
def FluxMiniCluster.submit (apis : ClusterAPIs) (h : KubernetesObject)
    (body : MiniCluster) : KubernetesObject × CreatedObject :=
  let result := apis.createNamespacedCustomObject "flux-framework.org" "v1alpha1"
      h.executor_args.namespaceName "miniclusters" body
  ({ h with jobname := some result.name }, result)

/-- The pod-listing and pod-log APIs used by `BatchJob.write_log`. -/
structure PodAPIs where
  listNamespacedPod : String → String → List String
  readNamespacedPodLog : String → String → String

/-- `BatchJob.write_log(self, logprefix)`: lists pods labelled
`job-name=<jobname>` in the configured namespace and writes each pod log to
`<logprefix>-<podName>.txt`.  Effects are the returned (path, contents)
list. -/
def BatchJob.write_log (api : PodAPIs) (h : KubernetesObject) (logprefixArg : String) :
    List (String × String) :=
  let ns := h.executor_args.namespaceName
  let jobnameStr := match h.jobname with
    | some s => s
    | none => "None"
  let pods := api.listNamespacedPod ns ("job-name=" ++ jobnameStr)
  pods.map (fun podName =>
    (logprefixArg ++ "-" ++ podName ++ ".txt", api.readNamespacedPodLog podName ns))

/-- `FluxMiniCluster` does not override `write_log`: it inherits the base
class implementation. -/
def FluxMiniCluster.write_log : KubernetesObject → String → List (String × String) :=
  KubernetesObject.write_log

/-- A sample handle for concrete evaluations: task name `align_reads`, id 42,
empty resource mapping, `jobname` unset. -/
def sampleHandle : KubernetesObject :=
  { job := { name := "align_reads", jobid := 42, resources := [] }
    executor_args := { namespaceName := "default", queue_name := "user-queue" }
    jobname := none }

/-- A native status object with every counter unset, used as a constant
cluster response in closed instantiations. -/
def defaultReadJob : ReadJob := ⟨⟨none, none, none, none⟩, none⟩

/-- The status mapping exactly as claim C1 words it: rule 4 fires when the
succeeded count is PRESENT (not None) and equal to the declared completions.
Rules 1 to 3 and the fallback match the source. -/
def specStatusC1 (j : ReadJob) : JobStatus :=
  if j.status.failed != some 0 then .FAILED
  else if pyTruthyCount j.status.active then .ACTIVE
  else if pyTruthyCount j.status.ready then .READY
  else if (j.status.succeeded).isSome && (j.status.succeeded == j.completions)
    then .SUCCEEDED
  else .UNKNOWN

/-- The status mapping with claim C1 amended: rule 4 fires when the succeeded
count is present, nonzero (Python-truthy) and equal to the declared
completions. -/
def specStatusC1Amended (j : ReadJob) : JobStatus :=
  if j.status.failed != some 0 then .FAILED
  else if pyTruthyCount j.status.active then .ACTIVE
  else if pyTruthyCount j.status.ready then .READY
  else if ((j.status.succeeded).isSome && (j.status.succeeded != some 0))
      && (j.status.succeeded == j.completions)
    then .SUCCEEDED
  else .UNKNOWN

/-- Python truthiness of an int-or-None counter is presence plus nonzero. -/
theorem pyTruthyCount_eq_isSome_and_ne (s : Option Int) :
    pyTruthyCount s = (s.isSome && (s != some 0)) := by
  cases s <;> rfl

/-- Claim C1 (counterexample): on the native status `failed=0, active=0,
ready=0, succeeded=0` of a job with declared `completions=0`, the succeeded
count is present and equal to the completions, so the claim maps it to
SUCCEEDED; the code tests `if succeeded` first, `0` is falsy, and it returns
UNKNOWN. -/
theorem C1_counterexample :
    BatchJob.mapStatus ⟨⟨some 0, some 0, some 0, some 0⟩, some 0⟩ = JobStatus.UNKNOWN ∧
    specStatusC1 ⟨⟨some 0, some 0, some 0, some 0⟩, some 0⟩ = JobStatus.SUCCEEDED :=
  ⟨rfl, rfl⟩

/-- Claim C1 (amended): `BatchJob.status` maps every native status by the
fixed priority order failed-not-zero, active truthy, ready truthy, succeeded
present AND NONZERO and equal to the declared completions, else UNKNOWN; in
particular `failed=1, active=1` maps to FAILED, `succeeded=3, completions=3`
with the other counters zero maps to SUCCEEDED, and `succeeded=2,
completions=3` maps to UNKNOWN. -/
theorem C1_status_mapping_amended :
    (∀ j : ReadJob, BatchJob.mapStatus j = specStatusC1Amended j) ∧
    BatchJob.mapStatus ⟨⟨some 1, some 1, none, none⟩, some 3⟩ = JobStatus.FAILED ∧
    BatchJob.mapStatus ⟨⟨some 0, some 0, some 0, some 3⟩, some 3⟩ = JobStatus.SUCCEEDED ∧
    BatchJob.mapStatus ⟨⟨some 0, some 0, some 0, some 2⟩, some 3⟩ = JobStatus.UNKNOWN := by
  refine ⟨?_, rfl, rfl, rfl⟩
  intro j
  unfold BatchJob.mapStatus specStatusC1Amended
  simp only [pyTruthyCount_eq_isSome_and_ne]

/-- Claim C2 (code evaluation at the failing input): for a task whose
resources lack `kueue.memory`, the batch-job generator places the default
memory request `"200Mi"`, but the MiniCluster generator places the default
memory limit `"200M1"`, which is not `"200Mi"`. -/
theorem C2_memory_default_divergence :
    ((BatchJob.generate sampleHandle "img" "cmd" []).spec.template.containers.map
        (fun c => c.resources.requests.memory)) = [PyValue.vstr "200Mi"] ∧
    ((FluxMiniCluster.generate sampleHandle "img" "cmd" []).spec.containers.map
        (fun c => c.limits.memory)) = [PyValue.vstr "200M1"] ∧
    PyValue.vstr "200M1" ≠ PyValue.vstr "200Mi" :=
  ⟨rfl, rfl, by decide⟩

/-- Claim C3 (code evaluation at the failing input): for task name
`align_reads` and id 42, the shared jobprefix is `snakejob-align-reads-42`
and the batch-job generator uses it as the metadata generate-name; the
MiniCluster generator instead passes `self.jobname`, which is still None
before submission, so its generated metadata carries no such name. -/
theorem C3_generate_name_divergence :
    KubernetesObject.jobprefixName sampleHandle = "snakejob-align-reads-42" ∧
    (BatchJob.generate sampleHandle "img" "cmd" []).metadata.generateName =
      some "snakejob-align-reads-42" ∧
    (FluxMiniCluster.generate sampleHandle "img" "cmd" []).metadata.generateName =
      none :=
  ⟨rfl, rfl, rfl⟩

/-- Claim C4: for every task and every set of execution parameters, the
generated batch-job object has completions 3, suspend true, parallelism
equal to the task's `_nodes` resource, and a pod template with restart
policy Never. -/
theorem C4_batchjob_fixed_fields (h : KubernetesObject) (image command : String)
    (args : List String) (wd : Option String) (d : PyValue)
    (env : Option (List (String × String))) :
    (BatchJob.generate h image command args wd d env).spec.completions = 3 ∧
    (BatchJob.generate h image command args wd d env).spec.suspendFlag = true ∧
    (BatchJob.generate h image command args wd d env).spec.parallelism =
      Resources.get h.job.resources "_nodes" ∧
    (BatchJob.generate h image command args wd d env).spec.template.restartPolicy =
      "Never" :=
  ⟨rfl, rfl, rfl, rfl⟩

/-- Claim C5: for every non-empty command and every argument sequence, the
MiniCluster generator places in its single container the single shell-style
string `command ++ " " ++ join(args, " ")`. -/
theorem C5_minicluster_command_join (h : KubernetesObject) (image command : String)
    (args : List String) (wd : Option String) (d : PyValue)
    (env : Option (List (String × String))) (_hc : command ≠ "") :
    ((FluxMiniCluster.generate h image command args wd d env).spec.containers.map
      MiniClusterContainer.command) =
    [command ++ " " ++ String.intercalate " " args] :=
  rfl

/-- Claim C5 witness: the sample task with command `echo` and arguments
`hello world` yields the single container command `echo hello world`. -/
theorem C5_minicluster_command_join_witness :
    ((FluxMiniCluster.generate sampleHandle "img" "echo" ["hello", "world"]).spec.containers.map
      MiniClusterContainer.command) = ["echo hello world"] :=
  C5_minicluster_command_join sampleHandle "img" "echo" ["hello", "world"]
    none .vnone none (by decide)

/-- Claim C6: for both variants, submit sends the body to the appropriate
create API (typed batch-job create for BatchJob; the generic custom-objects
create with group `flux-framework.org`, version `v1alpha1`, plural
`miniclusters` for FluxMiniCluster), records the cluster-assigned name into
the handle's jobname, and returns the created object. -/
theorem C6_submit_records_and_returns (apis : ClusterAPIs) (h : KubernetesObject)
    (jobBody : V1Job) (body : MiniCluster) :
    (BatchJob.submit apis h jobBody).2 =
        apis.createNamespacedJob h.executor_args.namespaceName jobBody ∧
    (BatchJob.submit apis h jobBody).1.jobname =
        some (apis.createNamespacedJob h.executor_args.namespaceName jobBody).name ∧
    (FluxMiniCluster.submit apis h body).2 =
        apis.createNamespacedCustomObject "flux-framework.org" "v1alpha1"
          h.executor_args.namespaceName "miniclusters" body ∧
    (FluxMiniCluster.submit apis h body).1.jobname =
        some (apis.createNamespacedCustomObject "flux-framework.org" "v1alpha1"
          h.executor_args.namespaceName "miniclusters" body).name :=
  ⟨rfl, rfl, rfl, rfl⟩

/-- Claim C7: on a handle whose jobname is still unset, a status query fails
with an error rather than returning a JobStatus, for both variants: the
batch variant because the typed client rejects the missing required name,
the MiniCluster variant because the class defines no status method at all. -/
theorem C7_status_before_submit (api : String → String → ReadJob)
    (h : KubernetesObject) (hn : h.jobname = none) :
    BatchJob.statusOf api h = Except.error StatusError.missingJobName ∧
    FluxMiniCluster.statusOf h = Except.error StatusError.methodMissing := by
  refine ⟨?_, rfl⟩
  unfold BatchJob.statusOf
  rw [hn]

/-- Claim C7 witness: the sample handle has no jobname and both status
queries return errors. -/
theorem C7_status_before_submit_witness :
    BatchJob.statusOf (fun _ _ => defaultReadJob) sampleHandle =
        Except.error StatusError.missingJobName ∧
    FluxMiniCluster.statusOf sampleHandle = Except.error StatusError.methodMissing :=
  C7_status_before_submit (fun _ _ => defaultReadJob) sampleHandle rfl

/-- Claim C8: whenever the native failed count is absent (None), the status
mapping returns FAILED, because `failed != 0` holds of None in Python. -/
theorem C8_failed_none_maps_to_FAILED (j : ReadJob)
    (hf : j.status.failed = none) : BatchJob.mapStatus j = JobStatus.FAILED := by
  unfold BatchJob.mapStatus
  rw [hf]
  rfl

/-- Claim C8 witness: failed absent with succeeded 3 equal to the declared
completions 3 still maps to FAILED. -/
theorem C8_failed_none_maps_to_FAILED_witness :
    BatchJob.mapStatus ⟨⟨some 0, none, some 0, some 3⟩, some 3⟩ = JobStatus.FAILED :=
  C8_failed_none_maps_to_FAILED ⟨⟨some 0, none, some 0, some 3⟩, some 3⟩ rfl

/-- Claim C9: both generators ignore their deadline parameter: any two calls
identical except in that parameter produce equal objects, because the
parameter is immediately overwritten by the task's runtime resource. -/
theorem C9_generate_deadline_param_ignored (h : KubernetesObject)
    (image command : String) (args : List String) (wd : Option String)
    (d1 d2 : PyValue) (env : Option (List (String × String))) :
    BatchJob.generate h image command args wd d1 env =
      BatchJob.generate h image command args wd d2 env ∧
    FluxMiniCluster.generate h image command args wd d1 env =
      FluxMiniCluster.generate h image command args wd d2 env :=
  ⟨rfl, rfl⟩

/-- Claim C10: FluxMiniCluster inherits the base no-op write-log: for every
handle and log prefix it writes zero files. -/
theorem C10_minicluster_write_log_noop :
    FluxMiniCluster.write_log = KubernetesObject.write_log ∧
    ∀ (h : KubernetesObject) (logprefixArg : String),
      FluxMiniCluster.write_log h logprefixArg = [] :=
  ⟨rfl, fun _ _ => rfl⟩
